import Mathlib

/-!
Shallow embedding of the async-mongodb-session crate (src/lib.rs), an
async-session backend storing session records in a MongoDB collection.

The store itself is stateless apart from its configuration
(`MongodbSessionStore` below, src/lib.rs lines 27-33); all persistent state
lives in the MongoDB collection. We model that external collaborator as an
explicit `DbState` (a list of documents plus a list of index
specifications) threaded through each operation, with the documented
semantics of the MongoDB commands the code issues: `find_one` on a filter,
`replace_one` with `upsert = true`, `delete_one`, `drop`, and
`createIndexes`. Clock reads (`Utc::now()`) become an explicit `now : Int`
parameter (a timestamp in seconds); transport errors of the database client
are outside the model, so the database operations themselves always
succeed here.

The session type comes from the external async_session crate; we embed the
part of its contract that the code relies on: a session has an `id`, an
optional `expiry` timestamp, a key/value `data` payload and an optional
`cookie_value`; BSON serialization keeps `id`, `expiry` and `data` (the
cookie value is skipped by serde); `id_from_cookie_value` decodes the
cookie (an error on a malformed cookie) and hashes the decoded bytes to
recover the id. Decoding and hashing are modelled injectively by string
markers.
-/

deriving instance DecidableEq for Except

namespace MongodbSession

/-- Errors of the embedded operations, matching the error kinds the code
can surface: a malformed cookie (base64 decode failure inside
async_session id_from_cookie_value), a BSON (de)serialization failure
(serde), and a database transport failure. The `database` kind is never
produced inside the model because the database collaborator is modelled as
available. -/
inductive StoreError where
  | malformedCookie
  | serde
  | database
deriving DecidableEq, Repr

/-- External async_session `Session`: unique `id`, optional `expiry`
instant, caller-owned key/value payload `data`, and the optional
`cookie_value` handed back to the caller (`into_cookie_value`). -/
structure Session where
  id : String
  expiry : Option Int
  data : List (String × String)
  cookie_value : Option String
deriving DecidableEq, Repr

/-- External async_session `Session::new()`: a freshly constructed session
has empty data and no expiry; its randomly generated id and cookie value
are abstracted to the empty / absent values (no claim depends on them). -/
def Session.new : Session :=
  { id := "", expiry := none, data := [], cookie_value := none }

/-- BSON values, as far as the code inspects them: either the faithful
serialization of a session (serde keeps `id`, `expiry`, `data` and skips
the cookie value), or any other BSON value, which fails to deserialize
into a session. -/
inductive Bson where
  | sess (id : String) (expiry : Option Int) (data : List (String × String))
  | other (n : Nat)
deriving DecidableEq, Repr

/-- External `bson::to_bson` applied to a `Session` (never fails for a
session value). -/
def to_bson (s : Session) : Bson :=
  .sess s.id s.expiry s.data

/-- External `bson::from_bson::<Session>`: inverts `to_bson` (the skipped
cookie value comes back absent) and fails with a serde error on any other
BSON value. -/
def from_bson : Bson → Except StoreError Session
  | .sess i e d => .ok { id := i, expiry := e, data := d, cookie_value := none }
  | .other _ => .error .serde

/-- External async_session cookie encoding: a cookie value is the base64
encoding of the session secret. A decodable cookie is modelled as the
marker "b64:" followed by the secret; decoding strips the marker and
fails (malformed cookie) on anything else. -/
def base64Decode (cookie : String) : Option String :=
  match cookie.data with
  | 'b' :: '6' :: '4' :: ':' :: rest => some (String.mk rest)
  | _ => none

/-- External async_session hash from the decoded cookie secret to the
session id, modelled injectively by the marker "h:". -/
def hashSecret (secret : String) : String :=
  "h:" ++ secret

/-- External `Session::id_from_cookie_value`: base64-decode the cookie
value (an error if malformed) and hash the decoded bytes to obtain the
stored session id. -/
def id_from_cookie_value (cookie : String) : Except StoreError String :=
  match base64Decode cookie with
  | none => .error .malformedCookie
  | some secret => .ok (hashSecret secret)

/-- A persisted session record (src/lib.rs line 199): `session_id`, the
serialized `session` payload (optional here, so that legacy records
missing the field are representable, src/lib.rs lines 214-217), `expireAt`
and `created`. -/
structure Doc where
  session_id : String
  session : Option Bson
  expireAt : Int
  created : Int
deriving DecidableEq, Repr

/-- A MongoDB index specification as issued by `create_expire_index`
(src/lib.rs lines 129-138): indexed field, index name, and
`expireAfterSeconds`. -/
structure IndexSpec where
  key : String
  name : String
  expireAfterSeconds : Nat
deriving DecidableEq, Repr

/-- The state of the target MongoDB collection: its documents and its
indexes. -/
structure DbState where
  docs : List Doc
  indexes : List IndexSpec
deriving DecidableEq, Repr

/-- The empty collection. -/
def dbEmpty : DbState :=
  { docs := [], indexes := [] }

/-- MongoDB `findOne(filter)` with filter `{ session_id: i }`: the first
document whose `session_id` equals `i`, if any. -/
def find_one (i : String) (docs : List Doc) : Option Doc :=
  docs.find? (fun d => d.session_id == i)

/-- MongoDB `replaceOne(filter, replacement, upsert = true)` with filter
`{ session_id: i }`: replace the first matching document, or append the
replacement when no document matches. -/
def replace_one_upsert (i : String) (r : Doc) : List Doc → List Doc
  | [] => [r]
  | d :: ds => if d.session_id == i then r :: ds else d :: replace_one_upsert i r ds

/-- MongoDB `deleteOne(filter)` with filter `{ session_id: i }`: remove
the first matching document, if any; succeeds either way. -/
def delete_one (i : String) : List Doc → List Doc
  | [] => []
  | d :: ds => if d.session_id == i then ds else d :: delete_one i ds

/-- `MongodbSessionStore` (src/lib.rs lines 27-33): a client handle
(abstracted to a numeric handle), database name, collection name and the
configured default ttl in seconds. -/
structure MongodbSessionStore where
  client : Nat
  db : String
  coll_name : String
  ttl : Nat
deriving DecidableEq, Repr

/-- `MongodbSessionStore::from_client` (src/lib.rs lines 69-76): bind to
an open client; the default ttl is 1200 seconds (20 minutes). -/
def from_client (client : Nat) (db coll_name : String) : MongodbSessionStore :=
  { client := client, db := db, coll_name := coll_name, ttl := 1200 }

/-- `MongodbSessionStore::set_ttl` (src/lib.rs lines 121-123): set the
default ttl field. -/
def set_ttl (store : MongodbSessionStore) (ttl : Nat) : MongodbSessionStore :=
  { store with ttl := ttl }

/-- `MongodbSessionStore::create_expire_index` (src/lib.rs lines 128-147):
run `createIndexes` on the collection with key the given field, name
"session_expire_index_" ++ field, and the given `expireAfterSeconds`.
MongoDB treats creating an identical existing index as a no-op. -/
def create_expire_index (store : MongodbSessionStore) (field_name : String)
    (expire_after_seconds : Nat) (st : DbState) : DbState :=
  let spec : IndexSpec :=
    { key := field_name
      name := "session_expire_index_" ++ field_name
      expireAfterSeconds := expire_after_seconds }
  { st with indexes := if spec ∈ st.indexes then st.indexes else st.indexes ++ [spec] }

/-- `MongodbSessionStore::index_on_expiry_at` (src/lib.rs lines 180-183):
a zero-offset expiry index on `expireAt`. -/
def index_on_expiry_at (store : MongodbSessionStore) (st : DbState) : DbState :=
  create_expire_index store "expireAt" 0 st

/-- `MongodbSessionStore::index_on_created` (src/lib.rs lines 162-166):
an expiry index on `created` with the given offset. -/
def index_on_created (store : MongodbSessionStore) (expire_after_seconds : Nat)
    (st : DbState) : DbState :=
  create_expire_index store "created" expire_after_seconds st

/-- `MongodbSessionStore::initialize` (src/lib.rs lines 92-95): provision
the zero-offset expiry index on `expireAt`. -/
def initializeStore (store : MongodbSessionStore) (st : DbState) : DbState :=
  index_on_expiry_at store st

/-- `store_session` (src/lib.rs lines 188-205): serialize the session,
compute `expireAt` (the declared expiry verbatim when present, otherwise
`Utc::now()` plus a hardcoded 1200 seconds — the configured `ttl` field is
not consulted), build the replacement document with `created` set to the
write time, upsert it filtered on `session_id`, and return the session
cookie value (`into_cookie_value`). -/
def store_session (store : MongodbSessionStore) (session : Session) (now : Int)
    (st : DbState) : Except StoreError (Option String) × DbState :=
  let value := to_bson session
  let i := session.id
  let expire_at : Int :=
    match session.expiry with
    | none => now + 1200
    | some expiry => expiry
  let replacement : Doc :=
    { session_id := i, session := some value, expireAt := expire_at, created := now }
  (.ok session.cookie_value, { st with docs := replace_one_upsert i replacement st.docs })

/-- `load_session` (src/lib.rs lines 207-221): derive the id from the
cookie value (propagating a malformed-cookie error), `find_one` filtered
on `session_id` only, return an empty result when nothing matches;
otherwise take the `session` field (substituting the serialization of a
fresh empty session when the field is missing) and deserialize it,
propagating any deserialization error. The source never reads the clock
here; the `now` parameter stands for the instant of the call and is
unused by the code. -/
def load_session (store : MongodbSessionStore) (cookie_value : String) (now : Int)
    (st : DbState) : Except StoreError (Option Session) :=
  match id_from_cookie_value cookie_value with
  | .error e => .error e
  | .ok i =>
    match find_one i st.docs with
    | none => .ok none
    | some d =>
      let bsession :=
        match d.session with
        | some v => v
        | none => to_bson Session.new
      match from_bson bsession with
      | .error e => .error e
      | .ok s => .ok (some s)

/-- `destroy_session` (src/lib.rs lines 223-228): `delete_one` filtered on
the session id; succeeds whether or not a record matched. -/
def destroy_session (store : MongodbSessionStore) (session : Session)
    (st : DbState) : Except StoreError Unit × DbState :=
  (.ok (), { st with docs := delete_one session.id st.docs })

/-- `clear_store` (src/lib.rs lines 230-235): drop the collection (which
removes its documents and its indexes) and then run `initialize`,
reprovisioning the zero-offset `expireAt` expiry index. -/
def clear_store (store : MongodbSessionStore) (st : DbState) :
    Except StoreError Unit × DbState :=
  (.ok (), initializeStore store { docs := [], indexes := [] })

/-- The `expireAt` value the specification prescribes for a write: the
declared expiry verbatim when present, otherwise the write time plus the
configured default ttl of the store. Stated from the specification words,
for comparison with what `store_session` actually persists. -/
def expireAtOfSpec (store : MongodbSessionStore) (session : Session) (now : Int) : Int :=
  match session.expiry with
  | none => now + (store.ttl : Int)
  | some expiry => expiry

/-- Number of documents in the collection carrying a given `session_id`. -/
def countId (i : String) : List Doc → Nat
  | [] => 0
  | d :: ds => (if d.session_id == i then 1 else 0) + countId i ds

/-- Run a sequence of `store_session` calls (session and write time per
call) against a collection state. -/
def runStoreOps (store : MongodbSessionStore) : List (Session × Int) → DbState → DbState
  | [], st => st
  | (s, n) :: ops, st => runStoreOps store ops (store_session store s n st).2

/-- The zero-offset expiry index on `expireAt` that `initialize`
provisions. -/
def expiryIndex : IndexSpec :=
  { key := "expireAt", name := "session_expire_index_expireAt", expireAfterSeconds := 0 }

/-! ### Lemmas about the modelled MongoDB collection operations -/

theorem countId_nil (i : String) : countId i [] = 0 :=
  rfl

theorem countId_cons (i : String) (d : Doc) (ds : List Doc) :
    countId i (d :: ds) = (if d.session_id == i then 1 else 0) + countId i ds :=
  rfl

theorem find_one_replace_self (i : String) (r : Doc) (docs : List Doc)
    (hr : r.session_id = i) :
    find_one i (replace_one_upsert i r docs) = some r := by
  induction docs with
  | nil =>
    simp [replace_one_upsert, find_one, hr]
  | cons d ds ih =>
    by_cases h : d.session_id = i
    · rw [replace_one_upsert, if_pos (by simp [h])]
      simp [find_one, hr]
    · rw [replace_one_upsert, if_neg (by simp [h])]
      rw [find_one, List.find?_cons_of_neg _ (by simp [h])]
      exact ih

theorem countId_replace_self (i : String) (r : Doc) (docs : List Doc)
    (hr : r.session_id = i) (h : countId i docs ≤ 1) :
    countId i (replace_one_upsert i r docs) = 1 := by
  induction docs with
  | nil => simp [replace_one_upsert, countId_cons, countId_nil, hr]
  | cons d ds ih =>
    rw [countId_cons] at h
    by_cases hd : d.session_id = i
    · rw [replace_one_upsert, if_pos (by simp [hd])]
      rw [if_pos (by simp [hd])] at h
      rw [countId_cons, if_pos (by simp [hr])]
      omega
    · rw [replace_one_upsert, if_neg (by simp [hd])]
      rw [if_neg (by simp [hd])] at h
      rw [countId_cons, if_neg (by simp [hd]), ih (by omega)]

theorem countId_replace_other (i j : String) (r : Doc) (docs : List Doc)
    (hr : r.session_id = j) (hne : j ≠ i) :
    countId i (replace_one_upsert j r docs) = countId i docs := by
  induction docs with
  | nil =>
    rw [replace_one_upsert, countId_cons, if_neg (by simp [hr]; exact hne)]
    omega
  | cons d ds ih =>
    by_cases hd : d.session_id = j
    · rw [replace_one_upsert, if_pos (by simp [hd])]
      rw [countId_cons, if_neg (by simp [hr]; exact hne),
        countId_cons, if_neg (by simp [hd]; exact hne)]
    · rw [replace_one_upsert, if_neg (by simp [hd])]
      rw [countId_cons, countId_cons, ih]

theorem countId_delete_self (i : String) (docs : List Doc) :
    countId i (delete_one i docs) = countId i docs - 1 := by
  induction docs with
  | nil => rfl
  | cons d ds ih =>
    by_cases hd : d.session_id = i
    · rw [delete_one, if_pos (by simp [hd])]
      rw [countId_cons, if_pos (by simp [hd])]
      omega
    · rw [delete_one, if_neg (by simp [hd])]
      rw [countId_cons, if_neg (by simp [hd]), countId_cons, if_neg (by simp [hd]), ih]
      omega

theorem mem_delete_of_ne (i : String) (d : Doc) (docs : List Doc)
    (hmem : d ∈ docs) (hne : d.session_id ≠ i) :
    d ∈ delete_one i docs := by
  induction docs with
  | nil => simp at hmem
  | cons e ds ih =>
    by_cases he : e.session_id = i
    · rw [delete_one, if_pos (by simp [he])]
      rcases List.mem_cons.mp hmem with h | h
      · exact absurd (h ▸ he) hne
      · exact h
    · rw [delete_one, if_neg (by simp [he])]
      rcases List.mem_cons.mp hmem with h | h
      · exact h ▸ List.mem_cons_self _ _
      · exact List.mem_cons_of_mem _ (ih h)

theorem delete_one_of_absent (i : String) (docs : List Doc)
    (h : countId i docs = 0) :
    delete_one i docs = docs := by
  induction docs with
  | nil => rfl
  | cons d ds ih =>
    rw [countId_cons] at h
    by_cases hd : d.session_id = i
    · rw [if_pos (by simp [hd])] at h
      omega
    · rw [if_neg (by simp [hd])] at h
      rw [delete_one, if_neg (by simp [hd]), ih (by omega)]

theorem countId_store_le (store : MongodbSessionStore) (s : Session) (n : Int)
    (st : DbState) (i : String) (h : countId i st.docs ≤ 1) :
    countId i ((store_session store s n st).2).docs ≤ 1 := by
  by_cases hid : s.id = i
  · subst hid
    rw [show ((store_session store s n st).2).docs
        = replace_one_upsert s.id
            { session_id := s.id, session := some (to_bson s),
              expireAt := match s.expiry with | none => n + 1200 | some e => e,
              created := n } st.docs from rfl]
    rw [countId_replace_self s.id _ st.docs rfl h]
  · rw [show ((store_session store s n st).2).docs
        = replace_one_upsert s.id
            { session_id := s.id, session := some (to_bson s),
              expireAt := match s.expiry with | none => n + 1200 | some e => e,
              created := n } st.docs from rfl]
    rw [countId_replace_other i s.id _ st.docs rfl hid]
    exact h

theorem countId_runStoreOps_le (store : MongodbSessionStore)
    (ops : List (Session × Int)) (st : DbState)
    (h : ∀ i, countId i st.docs ≤ 1) (i : String) :
    countId i ((runStoreOps store ops st)).docs ≤ 1 := by
  induction ops generalizing st with
  | nil => exact h i
  | cons p ops ih =>
    exact ih (store_session store p.1 p.2 st).2
      (fun j => countId_store_le store p.1 p.2 st j (h j))

theorem runStoreOps_append (store : MongodbSessionStore)
    (l1 l2 : List (Session × Int)) (st : DbState) :
    runStoreOps store (l1 ++ l2) st = runStoreOps store l2 (runStoreOps store l1 st) := by
  induction l1 generalizing st with
  | nil => rfl
  | cons p l1 ih => rw [List.cons_append, runStoreOps, runStoreOps, ih]

/-- The document `store_session` writes for a session at a given write
time (src/lib.rs line 199), to state the write lemmas compactly. -/
def storeDoc (s : Session) (n : Int) : Doc :=
  { session_id := s.id
    session := some (to_bson s)
    expireAt := match s.expiry with | none => n + 1200 | some e => e
    created := n }

theorem storeDoc_session_id (s : Session) (n : Int) :
    (storeDoc s n).session_id = s.id :=
  rfl

theorem store_session_fst (store : MongodbSessionStore) (s : Session) (n : Int)
    (st : DbState) :
    (store_session store s n st).1 = .ok s.cookie_value :=
  rfl

theorem store_session_docs (store : MongodbSessionStore) (s : Session) (n : Int)
    (st : DbState) :
    ((store_session store s n st).2).docs = replace_one_upsert s.id (storeDoc s n) st.docs :=
  rfl

theorem store_session_indexes (store : MongodbSessionStore) (s : Session) (n : Int)
    (st : DbState) :
    ((store_session store s n st).2).indexes = st.indexes :=
  rfl

/-! ### Shared concrete fixtures for witnesses and counterexamples -/

/-- A store bound to an arbitrary client handle, database and collection. -/
def store0 : MongodbSessionStore :=
  from_client 0 "db" "coll"

/-- A session as the external session layer produces it: the id is the
hash of the secret carried by the cookie value. -/
def sessW : Session :=
  { id := "h:x", expiry := none, data := [("k", "v")], cookie_value := some "b64:x" }

/-- A second session with the same identifier but a different payload. -/
def sessW2 : Session :=
  { id := "h:x", expiry := none, data := [("k2", "v2")], cookie_value := some "b64:x" }

/-- A legacy record missing the `session` payload field. -/
def docW : Doc :=
  { session_id := "h:x", session := none, expireAt := 50, created := 0 }

/-- A collection holding only the legacy record. -/
def stW : DbState :=
  { docs := [docW], indexes := [] }

/-- A record whose `session` payload is present but is not a valid session
serialization. -/
def docBad : Doc :=
  { session_id := "h:x", session := some (.other 0), expireAt := 50, created := 0 }

/-- A collection holding only the corrupted record. -/
def stBad : DbState :=
  { docs := [docBad], indexes := [] }

/-! ### Claims -/

/-- Claim C10: a store built by `from_client` (and hence by `new`, which
delegates to it) starts with a ttl of 1200 seconds; `set_ttl n` makes
`ttl` return exactly `n` and changes no other field of the store (client
handle, database name, collection name). -/
theorem ttl_config_frame (client : Nat) (db coll : String)
    (store : MongodbSessionStore) (n : Nat) :
    (from_client client db coll).ttl = 1200 ∧
    (set_ttl store n).ttl = n ∧
    (set_ttl store n).client = store.client ∧
    (set_ttl store n).db = store.db ∧
    (set_ttl store n).coll_name = store.coll_name :=
  ⟨rfl, rfl, rfl, rfl, rfl⟩

/-- Claim C1 (code bug): for a session without a declared expiry,
`store_session` persists `expireAt` as the write time plus a hardcoded
1200 seconds, ignoring the ttl configured with `set_ttl` — here a store
configured with ttl 300 still writes `expireAt = 0 + 1200`, while the
specified value is `0 + 300`. A declared expiry is persisted verbatim, as
the claim states. -/
theorem store_session_hardcodes_ttl :
    (((store_session (set_ttl store0 300)
        { id := "h:x", expiry := none, data := [], cookie_value := some "b64:x" }
        0 dbEmpty).2).docs.map Doc.expireAt = [1200]) ∧
    (expireAtOfSpec (set_ttl store0 300)
        { id := "h:x", expiry := none, data := [], cookie_value := some "b64:x" } 0 = 300) ∧
    ((1200 : Int) ≠ 300) ∧
    (((store_session (set_ttl store0 300)
        { id := "h:x", expiry := some 77, data := [], cookie_value := some "b64:x" }
        0 dbEmpty).2).docs.map Doc.expireAt = [77]) := by
  refine ⟨by decide, by decide, by decide, by decide⟩

/-- Claim C2 (code bug): `load_session` queries by `session_id` alone and
never consults `expireAt` or the clock, so a record whose `expireAt` (5)
lies before the time of the call (100) and is still physically present is
returned rather than treated as absent — contradicting the repository's
own `test_check_expired` test. -/
theorem load_session_ignores_expire_at :
    ((((store_session store0
        { id := "h:x", expiry := some 5, data := [("k", "v")], cookie_value := some "b64:x" }
        0 dbEmpty).2).docs.map Doc.expireAt) = [5]) ∧
    ((5 : Int) < 100) ∧
    (load_session store0 "b64:x" 100
        (store_session store0
          { id := "h:x", expiry := some 5, data := [("k", "v")], cookie_value := some "b64:x" }
          0 dbEmpty).2
      = .ok (some { id := "h:x", expiry := some 5, data := [("k", "v")], cookie_value := none })) ∧
    (load_session store0 "b64:x" 100
        (store_session store0
          { id := "h:x", expiry := some 5, data := [("k", "v")], cookie_value := some "b64:x" }
          0 dbEmpty).2
      ≠ .ok none) := by
  refine ⟨by decide, by decide, rfl, fun h => Option.noConfusion (Except.ok.inj h)⟩

/-- Claim C3: starting from the empty collection, after any sequence of
`store_session` calls at most one record exists per `session_id`, because
each call is a single replace-or-insert upsert filtered on `session_id`;
appending two stores with the same identifier leaves exactly one matching
record, holding the serialization of the most recently stored session. -/
theorem store_session_upsert_unique (store : MongodbSessionStore)
    (ops : List (Session × Int)) (i : String) (s1 s2 : Session) (n1 n2 : Int)
    (h1 : s1.id = i) (h2 : s2.id = i) :
    countId i ((runStoreOps store ops dbEmpty)).docs ≤ 1 ∧
    countId i ((runStoreOps store (ops ++ [(s1, n1), (s2, n2)]) dbEmpty)).docs = 1 ∧
    ((find_one i ((runStoreOps store (ops ++ [(s1, n1), (s2, n2)]) dbEmpty)).docs).map
      Doc.session) = some (some (to_bson s2)) := by
  have hbase : ∀ j, countId j dbEmpty.docs ≤ 1 := by
    intro j
    exact Nat.le_of_eq rfl |>.trans (Nat.zero_le 1)
  have hle : ∀ j, countId j ((runStoreOps store ops dbEmpty)).docs ≤ 1 :=
    countId_runStoreOps_le store ops dbEmpty hbase
  refine ⟨hle i, ?_, ?_⟩
  all_goals
    rw [runStoreOps_append,
      show runStoreOps store [(s1, n1), (s2, n2)] (runStoreOps store ops dbEmpty)
        = (store_session store s2 n2
            (store_session store s1 n1 (runStoreOps store ops dbEmpty)).2).2 from rfl,
      store_session_docs, store_session_docs]
  · rw [h2]
    refine countId_replace_self i (storeDoc s2 n2) _ (h2 ▸ storeDoc_session_id s2 n2) ?_
    rw [h1]
    rw [countId_replace_self i (storeDoc s1 n1) _ (h1 ▸ storeDoc_session_id s1 n1) (hle i)]
  · rw [h2, find_one_replace_self i (storeDoc s2 n2) _ (h2 ▸ storeDoc_session_id s2 n2)]
    rfl

/-- Claim C4: storing a session and loading with the cookie value the
store returned yields a session with the same payload, when the cookie
value decodes back to the stored session id (the contract of the external
session layer) — with or without the expiry bound the claim allows,
since `load_session` applies no expiry filtering. -/
theorem store_then_load_roundtrip (store : MongodbSessionStore) (s : Session)
    (cookie : String) (n m : Int) (st : DbState)
    (hc : s.cookie_value = some cookie)
    (hid : id_from_cookie_value cookie = .ok s.id)
    (hexp : ∀ e, s.expiry = some e → m ≤ e) :
    (store_session store s n st).1 = .ok (some cookie) ∧
    ∃ s2, load_session store cookie m (store_session store s n st).2 = .ok (some s2) ∧
      s2.data = s.data := by
  constructor
  · rw [store_session_fst, hc]
  · refine ⟨{ id := s.id, expiry := s.expiry, data := s.data, cookie_value := none },
      ?_, rfl⟩
    have hfind : find_one s.id ((store_session store s n st).2).docs
        = some (storeDoc s n) := by
      rw [store_session_docs]
      exact find_one_replace_self _ _ _ (storeDoc_session_id s n)
    simp only [load_session, hid, hfind]
    rfl

/-- Witness for C4 at a concrete store, session and write/read times. -/
theorem store_then_load_roundtrip_witness :
    (store_session store0 sessW 0 dbEmpty).1 = .ok (some "b64:x") ∧
    ∃ s2, load_session store0 "b64:x" 1 (store_session store0 sessW 0 dbEmpty).2
        = .ok (some s2) ∧ s2.data = sessW.data :=
  store_then_load_roundtrip store0 sessW "b64:x" 0 1 dbEmpty rfl (by decide)
    (fun e h => by simp [sessW] at h)

/-- Witness for C3 at a concrete store and two concrete sessions sharing
an identifier but differing in payload. -/
theorem store_session_upsert_unique_witness :
    countId "h:x" ((runStoreOps store0 [] dbEmpty)).docs ≤ 1 ∧
    countId "h:x" ((runStoreOps store0 ([] ++ [(sessW, 0), (sessW2, 1)]) dbEmpty)).docs = 1 ∧
    ((find_one "h:x" ((runStoreOps store0 ([] ++ [(sessW, 0), (sessW2, 1)]) dbEmpty)).docs).map
      Doc.session) = some (some (to_bson sessW2)) :=
  store_session_upsert_unique store0 [] "h:x" sessW sessW2 0 1 rfl rfl

/-- Counterexample to claim C5 as stated: a matching record whose
`session` payload is present but not a valid session serialization makes
`load_session` return the serde error — not the empty result the claim
prescribes. -/
theorem load_session_decode_error_cex :
    load_session store0 "b64:x" 0 stBad = .error .serde ∧
    load_session store0 "b64:x" 0 stBad ≠ .ok none := by
  refine ⟨rfl, by decide⟩

/-- Claim C5 as amended: when the matching record's `session` payload
field is present but fails to deserialize, `load_session` propagates the
deserialization error (the `?` on `bson::from_bson`), rather than
converting it into an empty result. -/
theorem load_session_decode_error_propagates (store : MongodbSessionStore)
    (cookie i : String) (now : Int) (st : DbState) (d : Doc) (b : Bson)
    (e : StoreError)
    (hid : id_from_cookie_value cookie = .ok i)
    (hfind : find_one i st.docs = some d)
    (hdoc : d.session = some b)
    (hbad : from_bson b = .error e) :
    load_session store cookie now st = .error e := by
  simp only [load_session, hid, hfind, hdoc, hbad]

/-- Witness for the amended C5 at a concrete corrupted record. -/
theorem load_session_decode_error_propagates_witness :
    load_session store0 "b64:x" 0 stBad = .error .serde :=
  load_session_decode_error_propagates store0 "b64:x" "h:x" 0 stBad docBad
    (.other 0) .serde (by decide) (by decide) rfl rfl

/-- Claim C6: a cookie value from which no identifier can be derived (a
base64 decode failure in the external session layer) makes `load_session`
surface the malformed-cookie error, never an empty result; a well-formed
cookie whose identifier matches no record yields the empty result, not an
error. -/
theorem load_session_cookie_handling (store : MongodbSessionStore) (now : Int)
    (st : DbState) :
    (∀ cookie, base64Decode cookie = none →
      load_session store cookie now st = .error .malformedCookie) ∧
    (∀ cookie i, id_from_cookie_value cookie = .ok i → find_one i st.docs = none →
      load_session store cookie now st = .ok none) := by
  constructor
  · intro cookie hmal
    simp only [load_session, id_from_cookie_value, hmal]
  · intro cookie i hid hfind
    simp only [load_session, hid, hfind]

/-- Witness for C6: the malformed cookie of the specification test
(errors), and a well-formed cookie against the empty collection (empty
result). -/
theorem load_session_cookie_handling_witness :
    load_session store0 "not-a-valid-cookie" 0 dbEmpty = .error .malformedCookie ∧
    load_session store0 "b64:x" 0 dbEmpty = .ok none :=
  ⟨(load_session_cookie_handling store0 0 dbEmpty).1 "not-a-valid-cookie" (by decide),
   (load_session_cookie_handling store0 0 dbEmpty).2 "b64:x" "h:x" (by decide) rfl⟩

/-- Claim C7: when the matching record lacks the `session` payload field,
`load_session` substitutes the serialization of a freshly constructed
empty session before deserializing, so the caller receives a well-formed
session with empty payload and no expiry. -/
theorem load_session_missing_payload (store : MongodbSessionStore)
    (cookie i : String) (now : Int) (st : DbState) (d : Doc)
    (hid : id_from_cookie_value cookie = .ok i)
    (hfind : find_one i st.docs = some d)
    (hmiss : d.session = none) :
    ∃ s, load_session store cookie now st = .ok (some s) ∧
      s.data = [] ∧ s.expiry = none := by
  refine ⟨{ id := "", expiry := none, data := [], cookie_value := none }, ?_, rfl, rfl⟩
  simp only [load_session, hid, hfind, hmiss]
  rfl

/-- Witness for C7 at a concrete legacy record without a `session`
field. -/
theorem load_session_missing_payload_witness :
    ∃ s, load_session store0 "b64:x" 0 stW = .ok (some s) ∧
      s.data = [] ∧ s.expiry = none :=
  load_session_missing_payload store0 "b64:x" "h:x" 0 stW docW (by decide) (by decide) rfl

/-- Claim C8: `clear_store` succeeds, leaves the collection without any
document, and reprovisions the zero-offset `expireAt` expiry index; after
it, every derivable cookie value loads as the empty result, and a
subsequent `store_session` succeeds while the expiry index is still in
place. -/
theorem clear_store_spec (store : MongodbSessionStore) (st : DbState) (now : Int) :
    (clear_store store st).1 = .ok () ∧
    ((clear_store store st).2).docs = [] ∧
    expiryIndex ∈ ((clear_store store st).2).indexes ∧
    (∀ cookie i, id_from_cookie_value cookie = .ok i →
      load_session store cookie now (clear_store store st).2 = .ok none) ∧
    (∀ s n, (store_session store s n (clear_store store st).2).1 = .ok s.cookie_value ∧
      expiryIndex ∈ ((store_session store s n (clear_store store st).2).2).indexes) := by
  have hidx : ((clear_store store st).2).indexes = [expiryIndex] := rfl
  refine ⟨rfl, rfl, ?_, ?_, ?_⟩
  · rw [hidx]
    exact List.mem_singleton.mpr rfl
  · intro cookie i hid
    simp only [load_session, hid]
    rfl
  · intro s n
    refine ⟨store_session_fst store s n _, ?_⟩
    rw [store_session_indexes, hidx]
    exact List.mem_singleton.mpr rfl

/-- Witness for C8 at a concrete store and pre-clear collection state. -/
theorem clear_store_spec_witness :
    load_session store0 "b64:x" 0 (clear_store store0 stBad).2 = .ok none ∧
    (store_session store0 sessW 1 (clear_store store0 stBad).2).1 = .ok sessW.cookie_value ∧
    expiryIndex ∈ ((store_session store0 sessW 1 (clear_store store0 stBad).2).2).indexes :=
  ⟨(clear_store_spec store0 stBad 0).2.2.2.1 "b64:x" "h:x" (by decide),
   ((clear_store_spec store0 stBad 0).2.2.2.2 sessW 1).1,
   ((clear_store_spec store0 stBad 0).2.2.2.2 sessW 1).2⟩

/-- Claim C9: `destroy_session` succeeds and removes the single record
matching the session identifier, leaving unrelated records in place; a
second destroy of the same identifier (an identifier with no record left)
also succeeds and changes nothing. -/
theorem destroy_session_idempotent (store : MongodbSessionStore) (s : Session)
    (st : DbState) (h : countId s.id st.docs ≤ 1) :
    (destroy_session store s st).1 = .ok () ∧
    countId s.id ((destroy_session store s st).2).docs = 0 ∧
    (∀ d ∈ st.docs, d.session_id ≠ s.id → d ∈ ((destroy_session store s st).2).docs) ∧
    (destroy_session store s (destroy_session store s st).2).1 = .ok () ∧
    ((destroy_session store s (destroy_session store s st).2).2).docs
      = ((destroy_session store s st).2).docs := by
  have hdocs : ((destroy_session store s st).2).docs = delete_one s.id st.docs := rfl
  refine ⟨rfl, ?_, ?_, rfl, ?_⟩
  · rw [hdocs, countId_delete_self]
    omega
  · intro d hmem hne
    rw [hdocs]
    exact mem_delete_of_ne s.id d st.docs hmem hne
  · show delete_one s.id (delete_one s.id st.docs) = delete_one s.id st.docs
    apply delete_one_of_absent
    rw [countId_delete_self]
    omega

/-- Witness for C9 at a concrete store, session, and a collection holding
one matching record. -/
theorem destroy_session_idempotent_witness :
    (destroy_session store0 sessW stW).1 = .ok () ∧
    countId sessW.id ((destroy_session store0 sessW stW).2).docs = 0 ∧
    (∀ d ∈ stW.docs, d.session_id ≠ sessW.id →
      d ∈ ((destroy_session store0 sessW stW).2).docs) ∧
    (destroy_session store0 sessW (destroy_session store0 sessW stW).2).1 = .ok () ∧
    ((destroy_session store0 sessW (destroy_session store0 sessW stW).2).2).docs
      = ((destroy_session store0 sessW stW).2).docs :=
  destroy_session_idempotent store0 sessW stW (by decide)

end MongodbSession
